import Mathlib

/-!
Verification of the boxbot order/payment/shipment core.

Shallow embedding of the order state machine of `src/bot.py` and the money
arithmetic of `src/db/models.py`, with theorems checking the natural-language
specification against the code.

Conventions:
* Order statuses are plain strings, as in the SQLAlchemy `String(32)` column
  and the `OrderStatus(Enum)` of `bot.py` (comparisons in the source are
  against `OrderStatus.X.value`).
* Python `//` on integers is floor division, embedded as `Int.fdiv`.
* Database sessions are embedded by explicit state passing: each handler is a
  pure function from the relevant persisted state (plus the responses of the
  external gateway/carrier, passed as data) to the new persisted state together
  with a record of the externally visible effects (notifications, HTTP calls).
-/

namespace BoxBot

/-- The status strings of `class OrderStatus(Enum)` in `bot.py`. -/
def statusNEW : String := "new"

def statusPAID_PARTIALLY : String := "paid_partially"

def statusPAID_FULL : String := "paid_full"

def statusASSEMBLED : String := "assembled"

def statusSHIPPED : String := "shipped"

def statusARCHIVED : String := "archived"

def statusABANDONED : String := "abandoned"

def statusPENDING_PAYMENT : String := "pending_payment"

/-- The keys of `Order.extra_data` (a JSON column) that the handlers under
verification read or write: `pvz_code`, `postal_code`,
`pending_payments` (payment kind ↦ gateway payment id), `yookassa_payment_id`,
`cdek_uuid`. -/
structure ExtraData where
  pvz_code : Option String := none
  postal_code : Option String := none
  pending_payments : List (String × String) := []
  yookassa_payment_id : Option String := none
  cdek_uuid : Option String := none
  deriving DecidableEq, Repr

/-- The fields of `db.models.Order` used by the handlers under verification. -/
structure Order where
  id : Nat
  user_id : Nat
  status : String
  payment_kind : Option String := none
  total_price_kop : Int := 0
  track : Option String := none
  extra_data : ExtraData := {}
  created_at : Int := 0
  deriving DecidableEq, Repr

/-- Embedding of `Order.prepay_amount` (`src/db/models.py`):
`(self.total_price_kop * 30 // 100) // 100` — rubles. -/
def Order.prepay_amount (o : Order) : Int :=
  ((o.total_price_kop * 30).fdiv 100).fdiv 100

/-- Embedding of `Order.remainder_amount` (`src/db/models.py`):
`prepay = (self.total_price_kop * 30) // 100;
 return max(self.total_price_kop - prepay, 0) // 100` — rubles. -/
def Order.remainder_amount (o : Order) : Int :=
  (max (o.total_price_kop - (o.total_price_kop * 30).fdiv 100) 0).fdiv 100

/-- Embedding of `Order.total_price` (`src/db/models.py`): `self.total_price_kop // 100`. -/
def Order.total_price (o : Order) : Int :=
  o.total_price_kop.fdiv 100

/-- The per-id order table of the SQLite store, as the handlers see it through
`sess.get(Order, order_id)`. -/
def OrderDB := Nat → Option Order

/-- Embedding of `get_order_by_id(order_id, user_id)` (`src/bot.py` lines 119–125):
returns the order only if it exists and `order.user_id == user_id`,
else `None`. -/
def get_order_by_id (db : OrderDB) (order_id : Nat) (user_id : Nat) :
    Option Order :=
  match db order_id with
  | some order => if order.user_id = user_id then some order else none
  | none => none

/-! ## Python-truthiness helpers

Several guards in `bot.py` test optional strings with Python truthiness
(`if not x`), which treats both `None` and the empty string as false. -/

/-- Python falsiness of an `Optional[str]`: `None` and `""` are falsy. -/
def pyFalsy : Option String → Bool
  | none => true
  | some s => s.isEmpty

/-- Python truthiness of an `Optional[str]`. -/
def pyTruthy (x : Option String) : Bool := !pyFalsy x

/-- Python `a or b` on two `Optional[str]` values: yields `a` when `a` is
truthy, else `b` (which may itself be `None` or empty). -/
def pyOr (a b : Option String) : Option String :=
  match a with
  | some s => if s.isEmpty then b else some s
  | none => b

/-- Python `s.startswith(p)` on strings. -/
def pyStartsWith (s p : String) : Bool := p.data.isPrefixOf s.data

/-- Python `s.split('/')[0]`: the characters before the first `'/'`
(the whole string when there is none). -/
def pySplitSlashHead (s : String) : String :=
  ⟨s.data.takeWhile (fun c => c ≠ '/')⟩

/-! ## Conversation state and `reset_states` -/

/-- The conversation-state flags of `db.models.User` that
`reset_states` (`src/bot.py` lines 759–795) clears. `reset_states`
additionally abandons the user's unfinished `NEW` orders; that part acts on
the order table and is not needed by the claims about the handlers below,
which operate on orders that are never in `NEW` at that point. -/
structure UserState where
  awaiting_redeem_code : Bool := false
  awaiting_auth : Bool := false
  awaiting_gift_message : Bool := false
  awaiting_pvz_address : Bool := false
  awaiting_manual_pvz : Bool := false
  awaiting_manual_track : Bool := false
  pvz_for_order_id : Option Nat := none
  temp_gift_order_id : Option Nat := none
  temp_order_id_for_track : Option Nat := none
  deriving DecidableEq, Repr

/-- The flag-clearing part of `reset_states`: every awaiting flag is set to
`False` and every temporary id to `None`. -/
def reset_states (_u : UserState) : UserState :=
  { awaiting_redeem_code := false
    awaiting_auth := false
    awaiting_gift_message := false
    awaiting_pvz_address := false
    awaiting_manual_pvz := false
    awaiting_manual_track := false
    pvz_for_order_id := none
    temp_gift_order_id := none
    temp_order_id_for_track := none }

/-! ## YooKassa webhook handler (`yookassa_webhook`, `src/bot.py` 4210–4300) -/

/-- The outcome of processing one `payment.succeeded` event for a found order
(`src/bot.py` lines 4250–4294): the persisted order row, the reset
conversation state of the order's owner (when the owner row exists), and how
many admin/owner notifications were sent. -/
structure WebhookOrderResult where
  order : Order
  user : Option UserState
  adminNotifications : Nat
  ownerNotifications : Nat
  deriving DecidableEq, Repr

/-- The per-order body of `yookassa_webhook` for a `payment.succeeded` event
(`src/bot.py` lines 4250–4294), given the found order, the
`payment_kind` from the event metadata (`"unknown"` when absent), the gateway
payment id, and the owner's user row:

1. if `order.status` is already `PAID_FULL`, `SHIPPED` or `ARCHIVED`,
   acknowledge and do nothing (replay protection);
2. else set `payment_kind`/`status` according to the declared kind
   (`full → PAID_FULL`, `pre → PAID_PARTIALLY`, `rem → PAID_FULL`; an
   unknown kind only logs a warning and changes neither field);
3. store the gateway payment id in `extra_data["yookassa_payment_id"]`,
   commit, reset the owner's conversation state, and notify the admins and
   the owner. -/
def yookassa_webhook_process_order (order : Order) (kind : String)
    (payment_id : String) (user : Option UserState) : WebhookOrderResult :=
  if order.status = statusPAID_FULL ∨ order.status = statusSHIPPED ∨
      order.status = statusARCHIVED then
    { order := order, user := user
      adminNotifications := 0, ownerNotifications := 0 }
  else
    let order1 :=
      if kind = "full" then
        { order with payment_kind := some "full", status := statusPAID_FULL }
      else if kind = "pre" then
        { order with payment_kind := some "pre",
                     status := statusPAID_PARTIALLY }
      else if kind = "rem" then
        { order with payment_kind := some "remainder",
                     status := statusPAID_FULL }
      else order
    let order2 :=
      { order1 with extra_data :=
          { order1.extra_data with yookassa_payment_id := some payment_id } }
    { order := order2
      user := user.map reset_states
      adminNotifications := 1
      ownerNotifications := 1 }

/-- The YooKassa origin filter (`src/bot.py` lines 4216–4219): the client IP
must be a member of the fixed set, or start with the part of a member before
its `'/'`. -/
def origin_allowed (client_ip : String) : Bool :=
  let yookassa_ips : List String :=
    ["77.75.154.206", "77.75.153.78", "77.75.154.0/24", "77.75.153.0/24"]
  yookassa_ips.contains client_ip ||
    yookassa_ips.any (fun ip => pyStartsWith client_ip (pySplitSlashHead ip))

/-- What happened inside the `try` block of `yookassa_webhook`: either an
exception was raised somewhere in it (malformed JSON, a failing
`WebhookNotification` constructor, a database or Telegram failure during
processing — all caught by the trailing `except Exception`), or the payload
parsed into an event with a gateway payment id and optional metadata. -/
inductive WebhookBody where
  | exception : WebhookBody
  | parsed (event : String) (payment_id : String)
      (metadata_order_id : Option String)
      (metadata_payment_kind : Option String) : WebhookBody

/-- The HTTP status code returned by `yookassa_webhook`
(`src/bot.py` lines 4210–4300), branch by branch: `403` when the origin
filter rejects the caller; otherwise `200` on every path — exception caught
(line 4298), event other than `payment.succeeded`, missing or non-numeric
`order_id` metadata, unknown order, already-processed order, and the full
processing path alike. -/
def yookassa_webhook_http (client_ip : String) (body : WebhookBody)
    (db : OrderDB) : Nat :=
  if !origin_allowed client_ip then 403
  else
    match body with
    | .exception => 200
    | .parsed event _ metadata_order_id _ =>
      if event = "payment.succeeded" then
        match metadata_order_id with
        | none => 200
        | some s =>
          match s.toNat? with
          | none => 200
          | some order_id =>
            match db order_id with
            | none => 200
            | some _ => 200
      else 200

/-! ## Payment keyboard (`send_payment_keyboard`, `src/bot.py` 2619–2779)

The status section (lines 2643–2663) first overwrites the session copy of
`order.status` with `PENDING_PAYMENT` whenever it differs, and only then
tests the session copy against `ABANDONED` and against the allowed set
`{NEW, PENDING_PAYMENT}`. The early-return branches leave the session
uncommitted, so on those branches the persisted status is the original one;
on the fall-through path the function creates the gateway payments and
commits at line 2765. -/

/-- Result of the status section of `send_payment_keyboard`: the status that
ends up persisted for the order, and whether the handler proceeded to create
gateway payments (rather than returning early with an error message). -/
structure PaymentKeyboardOutcome where
  persistedStatus : String
  proceeded : Bool
  deriving DecidableEq, Repr

/-- The status section of `send_payment_keyboard`
(`src/bot.py` lines 2643–2663):

```
if order.status != PENDING_PAYMENT: order.status = PENDING_PAYMENT; ...
if order.status == ABANDONED: ...; return            -- no commit
elif order.status not in (NEW, PENDING_PAYMENT): ...; return  -- no commit
... create payments ...; sess.commit()               -- line 2765
``` -/
def send_payment_keyboard_status (status : String) : PaymentKeyboardOutcome :=
  let sessionStatus :=
    if status ≠ statusPENDING_PAYMENT then statusPENDING_PAYMENT else status
  if sessionStatus = statusABANDONED then
    { persistedStatus := status, proceeded := false }
  else if sessionStatus ≠ statusNEW ∧ sessionStatus ≠ statusPENDING_PAYMENT then
    { persistedStatus := status, proceeded := false }
  else
    { persistedStatus := sessionStatus, proceeded := true }

/-! ## Timeout sweeper (`check_pending_timeouts`, `src/bot.py` 4027–4101) -/

/-- Value of `Config.PAYMENT_TIMEOUT_SEC` (`src/bot.py` line 443). -/
def PAYMENT_TIMEOUT_SEC : Int := 600

/-- The selection filter of the sweeper (`src/bot.py` lines 4033–4036): orders
whose status is `PENDING_PAYMENT` and whose `created_at` lies before
`now - PAYMENT_TIMEOUT_SEC`. Timestamps are epoch seconds. -/
def sweep_selects (now : Int) (o : Order) : Bool :=
  o.status = statusPENDING_PAYMENT && o.created_at < now - PAYMENT_TIMEOUT_SEC

/-- The per-kind order update of the sweeper's succeeded branch
(`src/bot.py` lines 4052–4063). `none` for an unknown kind, where the code
logs a warning and `continue`s without touching the order. -/
def sweeper_payment_update (order : Order) (k : String) : Option Order :=
  if k = "full" then
    some { order with payment_kind := some "full", status := statusPAID_FULL }
  else if k = "pre" then
    some { order with payment_kind := some "pre",
                      status := statusPAID_PARTIALLY }
  else if k = "rem" then
    some { order with payment_kind := some "remainder",
                      status := statusPAID_FULL }
  else none

/-- The attempt loop of the sweeper (`src/bot.py` lines 4045–4080) over the
entries of `order.extra_data["pending_payments"]` (kind ↦ gateway payment
id). `query` is `Payment.find_one(pid).status`; an exception while querying
is caught and counts as not succeeded, so it is folded into `query`
returning a non-`"succeeded"` string. Returns the order after the loop, the
`succeeded` flag, and the number of admin notifications
(`notify_admins_payment_success`) sent. -/
def sweep_loop (query : String → String) :
    List (String × String) → Order → Bool → Order × Bool × Nat
  | [], order, succeeded => (order, succeeded, 0)
  | (k, pid) :: rest, order, succeeded =>
    if query pid = "succeeded" then
      match sweeper_payment_update order k with
      | some order1 => (order1, true, 1)
      | none => sweep_loop query rest order true
    else
      sweep_loop query rest order succeeded

/-- The outcome of one sweeper pass over one selected order. -/
structure SweepOrderResult where
  order : Order
  adminNotifications : Nat
  ownerNotifications : Nat
  deriving DecidableEq, Repr

/-- The body of `check_pending_timeouts` for one selected order
(`src/bot.py` lines 4039–4095): run the attempt loop; if no attempt
succeeded, set the status to `ABANDONED`, commit, and message the owner. -/
def check_pending_timeouts_order (query : String → String) (order : Order) :
    SweepOrderResult :=
  let r := sweep_loop query order.extra_data.pending_payments order false
  if r.2.1 then
    { order := r.1, adminNotifications := r.2.2, ownerNotifications := 0 }
  else
    { order := { r.1 with status := statusABANDONED }
      adminNotifications := r.2.2
      ownerNotifications := 1 }

/-! ## Carrier shipment creation (`create_cdek_order`, `src/bot.py` 584–732) -/

/-- The fields of the owner's user row that `create_cdek_order` checks
(`src/bot.py` line 608): `full_name` and `phone`, both tested with Python
truthiness. -/
structure CdekUser where
  full_name : Option String := none
  phone : Option String := none
  deriving DecidableEq, Repr

/-- The external world as `create_cdek_order` sees it: the CDEK OAuth token
(`get_cdek_prod_token`, falsy on failure) and the outcome of the
`POST /v2/orders` call — `none` for an HTTP status outside `{200, 201, 202}`
or a raised exception, `some none` for a 2xx body without `entity.uuid`,
`some (some u)` for a body carrying uuid `u`. -/
structure CdekEnv where
  token : Option String := none
  createResp : Option (Option String) := none
  deriving DecidableEq, Repr

/-- The outcome of `create_cdek_order`: its boolean return value, the
persisted order row afterwards (`none` when the order id resolved to no
row), and how many times the carrier's create-shipment endpoint was
called. -/
structure CreateCdekResult where
  ok : Bool
  order : Option Order
  carrierCreateCalls : Nat
  deriving DecidableEq, Repr

/-- Embedding of `create_cdek_order(order_id)` (`src/bot.py` lines 584–732):

1. falsy token → `False` (line 586);
2. order not found → `False` (line 595);
3. falsy `extra_data["pvz_code"]` → `False` (line 603);
4. owner row missing, or falsy `full_name` or `phone` → `False` (line 608);
5. exactly one `POST` to the carrier (lines 681–688); non-2xx status,
   missing `entity.uuid`, or an exception → `False`, order untouched;
6. on success write `extra_data["cdek_uuid"]`, `track := uuid`,
   `status := SHIPPED`, commit, and return `True` (lines 711–732).

The function performs no check of any previously stored
`extra_data["cdek_uuid"]`: it always calls the carrier once it passes the
precondition guards, and overwrites the stored uuid. -/
def create_cdek_order (env : CdekEnv) (order? : Option Order)
    (user? : Option CdekUser) : CreateCdekResult :=
  if pyFalsy env.token then
    { ok := false, order := order?, carrierCreateCalls := 0 }
  else
    match order? with
    | none => { ok := false, order := none, carrierCreateCalls := 0 }
    | some order =>
      if pyFalsy order.extra_data.pvz_code then
        { ok := false, order := some order, carrierCreateCalls := 0 }
      else
        match user? with
        | none => { ok := false, order := some order, carrierCreateCalls := 0 }
        | some user =>
          if pyFalsy user.full_name || pyFalsy user.phone then
            { ok := false, order := some order, carrierCreateCalls := 0 }
          else
            match env.createResp with
            | none =>
              { ok := false, order := some order, carrierCreateCalls := 1 }
            | some none =>
              { ok := false, order := some order, carrierCreateCalls := 1 }
            | some (some uuid) =>
              { ok := true
                order := some { order with
                  extra_data :=
                    { order.extra_data with cdek_uuid := some uuid }
                  track := some uuid
                  status := statusSHIPPED }
                carrierCreateCalls := 1 }

/-- The outcome of the admin "set shipped" callback. -/
structure SetShippedResult where
  ok : Bool
  order : Option Order
  carrierCreateCalls : Nat
  deriving DecidableEq, Repr

/-- Embedding of `cb_admin_set_shipped` (`src/bot.py` lines 2262–2295): refuse when the
order is missing, its status is not `ASSEMBLED`, or its `payment_kind` is not
`full`/`remainder`; refuse non-admins; otherwise delegate to
`create_cdek_order` (which on success sets the status to `SHIPPED`). -/
def cb_admin_set_shipped (env : CdekEnv) (order? : Option Order)
    (user? : Option CdekUser) (isAdmin : Bool) : SetShippedResult :=
  match order? with
  | none => { ok := false, order := none, carrierCreateCalls := 0 }
  | some order =>
    if order.status ≠ statusASSEMBLED ∨
        (order.payment_kind ≠ some "full" ∧
         order.payment_kind ≠ some "remainder") then
      { ok := false, order := some order, carrierCreateCalls := 0 }
    else if !isAdmin then
      { ok := false, order := some order, carrierCreateCalls := 0 }
    else
      let r := create_cdek_order env (some order) user?
      { ok := r.ok, order := r.order, carrierCreateCalls := r.carrierCreateCalls }

/-! ## Shipment status poller (`check_all_shipped_orders`, `src/bot.py` 3921–4024) -/

/-- The carrier response for one order, as read by the poller
(`src/bot.py` lines 3950–3956): the fields `number`, `cdek_number`,
`status.description` and `status.code` of `get_cdek_order_info`. -/
structure CdekInfo where
  number : Option String := none
  cdek_number : Option String := none
  status_description : Option String := none
  status_code : Option String := none
  deriving DecidableEq, Repr

/-- The important-status list of the poller (`src/bot.py` lines 3989–3996). -/
def important_statuses : List String :=
  ["Принят на склад отправителя", "Выдан на доставку", "Доставлен",
   "Вручён", "Возврат", "Неудачная попытка вручения"]

/-- The outcome of one poller iteration over one `SHIPPED` order. -/
structure PollerStepResult where
  order : Order
  trackNotifications : Nat
  statusNotifications : Nat
  cache : Option String
  deriving DecidableEq, Repr

/-- One iteration of `check_all_shipped_orders` over one `SHIPPED` order
(`src/bot.py` lines 3940–4018). `info?` is the result of
`get_cdek_order_info` (`none` on failure) and `cache` the
`last_status_cache` entry for this order id.

* Lines 3946–3959: skip when `extra_data["cdek_uuid"]` is falsy, the info
  call failed, or both `new_track` and `new_status` are falsy.
* Lines 3961–3985: when `new_track` is truthy and `order.track` is falsy or
  starts with `"BOX"`, persist `order.track := new_track` and send the
  owner (and the admins) the track-number notification.
* Lines 3988–4018: when `status.description` is one of the important
  statuses and differs from the cached one, update the cache and send a
  status notification. -/
def check_all_shipped_orders_step (order : Order) (info? : Option CdekInfo)
    (cache : Option String) : PollerStepResult :=
  if pyFalsy order.extra_data.cdek_uuid then
    { order := order, trackNotifications := 0, statusNotifications := 0
      cache := cache }
  else
    match info? with
    | none =>
      { order := order, trackNotifications := 0, statusNotifications := 0
        cache := cache }
    | some info =>
      let new_track := pyOr info.number info.cdek_number
      let new_status := pyOr info.status_description info.status_code
      if !pyTruthy new_track && !pyTruthy new_status then
        { order := order, trackNotifications := 0, statusNotifications := 0
          cache := cache }
      else
        let trackHit := pyTruthy new_track &&
          (pyFalsy order.track || pyStartsWith ((order.track).getD "") "BOX")
        let order1 := if trackHit then { order with track := new_track } else order
        let trackN := if trackHit then 1 else 0
        let desc := info.status_description.getD ""
        if important_statuses.contains desc && cache ≠ some desc then
          { order := order1, trackNotifications := trackN
            statusNotifications := 1, cache := some desc }
        else
          { order := order1, trackNotifications := trackN
            statusNotifications := 0, cache := cache }

end BoxBot

namespace BoxBot

/-! Concrete fixtures used by witnesses and counterexamples. -/

/-- A pending-payment order used by the C2 counterexample and witness. -/
def c2Order : Order :=
  { id := 2, user_id := 20, status := statusPENDING_PAYMENT }

/-- A carrier environment whose create call succeeds with a fresh uuid. -/
def c3Env : CdekEnv := { token := some "tok", createResp := some (some "uuid-new") }

/-- An owner profile complete enough to build a carrier request. -/
def c3User : CdekUser :=
  { full_name := some "Иван Иванов", phone := some "+79991234567" }

/-- An assembled, fully paid order that already carries a carrier id. -/
def c3Order : Order :=
  { id := 3, user_id := 30, status := statusASSEMBLED
    payment_kind := some "full"
    extra_data := { pvz_code := some "MSK123", cdek_uuid := some "uuid-old" } }

/-- A pending-payment order with one outstanding `pre` payment attempt,
created at epoch second 0. -/
def c4Order : Order :=
  { id := 4, user_id := 40, status := statusPENDING_PAYMENT
    extra_data := { pending_payments := [("pre", "p1")] }, created_at := 0 }

/-- A pending-payment order with no succeeded attempt. -/
def c4OrderB : Order :=
  { id := 41, user_id := 40, status := statusPENDING_PAYMENT
    extra_data := { pending_payments := [("full", "p2")] }, created_at := 0 }

/-- A carrier environment accepting the shipment with a uuid shaped like the
ones CDEK issues (it does not start with `BOX`). -/
def c5Env : CdekEnv :=
  { token := some "tok", createResp := some (some "72753031-1111") }

/-- An owner profile complete enough to build a carrier request. -/
def c5User : CdekUser :=
  { full_name := some "Пётр Петров", phone := some "+79990000000" }

/-- An assembled order about to be shipped. -/
def c5Order : Order :=
  { id := 5, user_id := 50, status := statusASSEMBLED
    extra_data := { pvz_code := some "MSK1" } }

/-- The order row `create_cdek_order` persists for `c5Order` under `c5Env`:
uuid stored in the extension map and in `track`, status `SHIPPED`. -/
def c5Shipped : Order :=
  { id := 5, user_id := 50, status := statusSHIPPED
    track := some "72753031-1111"
    extra_data := { pvz_code := some "MSK1", cdek_uuid := some "72753031-1111" } }

/-- A poll result carrying a real tracking number. -/
def c5Info : CdekInfo := { cdek_number := some "1234567890" }

/-- An assembled order for the carrier-failure claim. -/
def c6Order : Order :=
  { id := 6, user_id := 60, status := statusASSEMBLED
    extra_data := { pvz_code := some "MSK2" } }

/-- A pending order for the unknown-kind webhook claim. -/
def c8Order : Order :=
  { id := 8, user_id := 80, status := statusPENDING_PAYMENT }

/-- An owner mid-conversation, to observe the state reset. -/
def c8User : UserState := { awaiting_gift_message := true }

/-- An order priced at 101.00 rubles (10100 kopecks). -/
def c9Order : Order :=
  { id := 9, user_id := 90, status := statusNEW, total_price_kop := 10100 }

/-! Helper lemmas shared by the claim theorems. -/

/-- When no outstanding attempt's queried status is `succeeded`, the sweeper's
attempt loop leaves the order and the `succeeded` flag unchanged and sends no
admin notification. -/
theorem sweep_loop_none_succeeded (query : String → String)
    (l : List (String × String)) (order : Order) (s : Bool)
    (h : ∀ kp ∈ l, ¬ query kp.2 = "succeeded") :
    sweep_loop query l order s = (order, s, 0) := by
  induction l with
  | nil => rfl
  | cons kp rest ih =>
    obtain ⟨k, pid⟩ := kp
    have h1 : ¬ query pid = "succeeded" := h (k, pid) (List.mem_cons_self _ _)
    simp only [sweep_loop, if_neg h1]
    exact ih (fun kp hm => h kp (List.mem_cons_of_mem _ hm))

/-- When the first succeeded attempt in the list has a known kind, the
sweeper's attempt loop commits that attempt's update, sets the flag, and sends
one admin notification. -/
theorem sweep_loop_first_succeeded (query : String → String)
    (l : List (String × String)) (order : Order) (s : Bool) (k pid : String)
    (hfind : l.find? (fun kp => query kp.2 == "succeeded") = some (k, pid))
    (hk : k = "full" ∨ k = "pre" ∨ k = "rem") :
    ∃ o1, sweeper_payment_update order k = some o1 ∧
      sweep_loop query l order s = (o1, true, 1) := by
  induction l generalizing s with
  | nil => simp at hfind
  | cons kp rest ih =>
    obtain ⟨k', pid'⟩ := kp
    by_cases hq : query pid' = "succeeded"
    · rw [List.find?_cons_of_pos _ (by simpa using hq)] at hfind
      have hk' : k' = k := congrArg Prod.fst (Option.some.inj hfind)
      subst hk'
      have hupd : ∃ o1, sweeper_payment_update order k' = some o1 := by
        rcases hk with h | h | h <;> subst h <;> simp [sweeper_payment_update]
      obtain ⟨o1, ho1⟩ := hupd
      refine ⟨o1, ho1, ?_⟩
      simp only [sweep_loop, if_pos hq, ho1]
    · rw [List.find?_cons_of_neg _ (by simpa using hq)] at hfind
      obtain ⟨o1, ho1, hrec⟩ := ih s hfind
      exact ⟨o1, ho1, by simp only [sweep_loop, if_neg hq]; exact hrec⟩

/-- A successful `create_cdek_order` made exactly one carrier call and
persisted status `SHIPPED`. -/
theorem create_cdek_order_ok (env : CdekEnv) (order? : Option Order)
    (user? : Option CdekUser)
    (h : (create_cdek_order env order? user?).ok = true) :
    (create_cdek_order env order? user?).carrierCreateCalls = 1 ∧
    ∀ o1, (create_cdek_order env order? user?).order = some o1 →
      o1.status = statusSHIPPED := by
  unfold create_cdek_order at *
  by_cases ht : pyFalsy env.token = true
  · simp [ht] at h
  · simp only [ht] at *
    cases order? with
    | none => simp at h
    | some order =>
      by_cases hp : pyFalsy order.extra_data.pvz_code = true
      · simp [hp] at h
      · simp only [hp] at *
        cases user? with
        | none => simp at h
        | some user =>
          by_cases hu : (pyFalsy user.full_name || pyFalsy user.phone) = true
          · simp [hu] at h
          · simp only [hu] at *
            cases hr : env.createResp with
            | none => simp [hr] at h
            | some r =>
              cases r with
              | none => simp [hr] at h
              | some uuid =>
                simp only [hr]
                refine ⟨by simp, ?_⟩
                intro o1 ho1
                simp at ho1
                simp [← ho1]

/-- A successful `create_cdek_order` stores the uuid the carrier returned as
the order's `track` value. -/
theorem create_cdek_order_ok_track (env : CdekEnv) (order? : Option Order)
    (user? : Option CdekUser) (uuid : String)
    (hresp : env.createResp = some (some uuid))
    (hok : (create_cdek_order env order? user?).ok = true) :
    ∀ o1, (create_cdek_order env order? user?).order = some o1 →
      o1.track = some uuid := by
  unfold create_cdek_order at *
  by_cases ht : pyFalsy env.token = true
  · simp [ht] at hok
  · simp only [ht] at *
    cases order? with
    | none => simp at hok
    | some order =>
      by_cases hp : pyFalsy order.extra_data.pvz_code = true
      · simp [hp] at hok
      · simp only [hp] at *
        cases user? with
        | none => simp at hok
        | some user =>
          by_cases hu : (pyFalsy user.full_name || pyFalsy user.phone) = true
          · simp [hu] at hok
          · simp only [hu] at *
            simp only [hresp] at *
            intro o1 ho1
            simp at ho1
            simp [← ho1]

/-- An order whose stored `track` is a nonempty string that does not start
with `BOX` can never trigger the poller's track notification, whatever the
carrier returns. -/
theorem poller_track_guard_dead (o : Order) (u : String)
    (htrack : o.track = some u) (hne : u.isEmpty = false)
    (hbox : pyStartsWith u "BOX" = false) :
    ∀ (info? : Option CdekInfo) (cache : Option String),
      (check_all_shipped_orders_step o info? cache).trackNotifications = 0 := by
  intro info? cache
  unfold check_all_shipped_orders_step
  by_cases hc : pyFalsy o.extra_data.cdek_uuid = true
  · simp [hc]
  · simp only [hc, Bool.false_eq_true, if_false]
    cases info? with
    | none => rfl
    | some info =>
      have hhit : (pyTruthy (pyOr info.number info.cdek_number) &&
          (pyFalsy o.track || pyStartsWith ((o.track).getD "") "BOX")) = false := by
        rw [htrack]
        simp [pyFalsy, hne, hbox]
      simp only [hhit]
      split
      · rfl
      · simp only [Bool.false_eq_true, if_false]
        split <;> rfl

end BoxBot

namespace BoxBot

/-- C1: the claim says every status change follows the allowed-transitions
table, checked against an expected-from set before writing, and that orders
in `ARCHIVED` or `ABANDONED` never change status. The code violates this:
the status section of `send_payment_keyboard` (`src/bot.py` 2643–2663)
overwrites the status with `PENDING_PAYMENT` before testing it, so the
`ABANDONED` guard and the allowed-set guard compare the freshly written
value, both are dead, and an `ABANDONED` or `ARCHIVED` order is persisted as
`PENDING_PAYMENT` with payment creation proceeding. -/
theorem c1_terminal_status_overwritten :
    (send_payment_keyboard_status statusABANDONED).persistedStatus =
        statusPENDING_PAYMENT ∧
    (send_payment_keyboard_status statusABANDONED).proceeded = true ∧
    (send_payment_keyboard_status statusARCHIVED).persistedStatus =
        statusPENDING_PAYMENT ∧
    (send_payment_keyboard_status statusARCHIVED).proceeded = true := by
  decide

/-- C2 counterexample: delivering the same succeeded `pre` webhook twice to a
pending order produces two owner notifications, because after the first
delivery the order is in `PAID_PARTIALLY`, which is missing from the
handler's replay-protection set — the claim's "at most one notification for
any payment kind" is false. -/
theorem c2_counterexample :
    (yookassa_webhook_process_order c2Order "pre" "pay_1" none).ownerNotifications +
      (yookassa_webhook_process_order
        (yookassa_webhook_process_order c2Order "pre" "pay_1" none).order
        "pre" "pay_1" none).ownerNotifications = 2 := by
  decide

/-- C2 (amended): for kinds `full` and `rem` the second delivery of the same
succeeded webhook is a complete no-op — the first delivery leaves the order
in `PAID_FULL`, which is in the replay-protection set — so exactly one
transition and one notification happen. For kind `pre` the first delivery
moves the order to `PAID_PARTIALLY`, which is not in that set, so the second
delivery is re-processed: the status value is unchanged but the owner and
admins are notified a second time. -/
theorem c2_webhook_replay (o : Order) (pid : String) (u : Option UserState)
    (hterm : ¬(o.status = statusPAID_FULL ∨ o.status = statusSHIPPED ∨
      o.status = statusARCHIVED)) :
    (∀ k, (k = "full" ∨ k = "rem") →
      (yookassa_webhook_process_order o k pid u).order.status = statusPAID_FULL ∧
      (yookassa_webhook_process_order o k pid u).ownerNotifications = 1 ∧
      yookassa_webhook_process_order
          (yookassa_webhook_process_order o k pid u).order k pid
          (yookassa_webhook_process_order o k pid u).user =
        { order := (yookassa_webhook_process_order o k pid u).order
          user := (yookassa_webhook_process_order o k pid u).user
          adminNotifications := 0, ownerNotifications := 0 }) ∧
    ((yookassa_webhook_process_order o "pre" pid u).order.status =
        statusPAID_PARTIALLY ∧
      (yookassa_webhook_process_order o "pre" pid u).ownerNotifications = 1 ∧
      (yookassa_webhook_process_order
        (yookassa_webhook_process_order o "pre" pid u).order "pre" pid
        (yookassa_webhook_process_order o "pre" pid u).user).order.status =
          statusPAID_PARTIALLY ∧
      (yookassa_webhook_process_order
        (yookassa_webhook_process_order o "pre" pid u).order "pre" pid
        (yookassa_webhook_process_order o "pre" pid u).user).ownerNotifications
          = 1) := by
  constructor
  · rintro k (rfl | rfl) <;>
    · simp only [yookassa_webhook_process_order, if_neg hterm]
      simp [statusPAID_FULL, statusSHIPPED, statusARCHIVED]
  · simp only [yookassa_webhook_process_order, if_neg hterm]
    simp [statusPAID_FULL, statusSHIPPED, statusARCHIVED, statusPAID_PARTIALLY]

/-- C2 witness: the amended replay behavior instantiated on a concrete
pending order and a `full` payment. -/
theorem c2_webhook_replay_witness :
    ¬(c2Order.status = statusPAID_FULL ∨ c2Order.status = statusSHIPPED ∨
      c2Order.status = statusARCHIVED) ∧
    (yookassa_webhook_process_order c2Order "full" "pay_1" none).order.status =
      statusPAID_FULL := by
  refine ⟨by decide, ?_⟩
  exact ((c2_webhook_replay c2Order "pay_1" none (by decide)).1 "full"
    (Or.inl rfl)).1

end BoxBot

namespace BoxBot

/-- C3 counterexample: an admin shipping request on an `ASSEMBLED` order that
already carries carrier id `uuid-old` does not short-circuit: the carrier's
create endpoint is called (once) and the stored carrier id is overwritten
with the fresh `uuid-new` instead of being reused. -/
theorem c3_counterexample :
    (cb_admin_set_shipped c3Env (some c3Order) (some c3User) true).carrierCreateCalls
        = 1 ∧
    (cb_admin_set_shipped c3Env (some c3Order) (some c3User) true).order =
      some { c3Order with
        extra_data := { c3Order.extra_data with cdek_uuid := some "uuid-new" }
        track := some "uuid-new", status := statusSHIPPED } := by
  decide

/-- C3 (amended): `create_cdek_order` performs no existing-shipment
short-circuit — it calls the carrier unconditionally once its precondition
guards pass, overwriting any stored carrier id. Duplicate shipment is
prevented only sequentially, by the caller's guard: a successful
`cb_admin_set_shipped` leaves the order in `SHIPPED`, so a second request on
the resulting order is refused before any carrier call, and two sequential
requests make exactly one carrier call in total. -/
theorem c3_sequential_single_shipment (env env' : CdekEnv) (o : Order)
    (u u' : Option CdekUser) (adm' : Bool)
    (h : (cb_admin_set_shipped env (some o) u true).ok = true) :
    (cb_admin_set_shipped env (some o) u true).carrierCreateCalls = 1 ∧
    ∀ o1, (cb_admin_set_shipped env (some o) u true).order = some o1 →
      o1.status = statusSHIPPED ∧
      (cb_admin_set_shipped env' (some o1) u' adm').ok = false ∧
      (cb_admin_set_shipped env' (some o1) u' adm').order = some o1 ∧
      (cb_admin_set_shipped env' (some o1) u' adm').carrierCreateCalls = 0 := by
  unfold cb_admin_set_shipped at h ⊢
  by_cases hg : (o.status ≠ statusASSEMBLED ∨
      (o.payment_kind ≠ some "full" ∧ o.payment_kind ≠ some "remainder"))
  · simp only [if_pos hg] at h
    simp at h
  · simp only [if_neg hg] at h ⊢
    simp only [Bool.not_true, Bool.false_eq_true, if_false] at h ⊢
    have hc := create_cdek_order_ok env (some o) u h
    refine ⟨hc.1, ?_⟩
    intro o1 ho1
    have hship := hc.2 o1 ho1
    have hguard : (o1.status ≠ statusASSEMBLED ∨
        (o1.payment_kind ≠ some "full" ∧ o1.payment_kind ≠ some "remainder")) := by
      left
      rw [hship]
      simp [statusSHIPPED, statusASSEMBLED]
    refine ⟨hship, ?_, ?_, ?_⟩ <;> simp [if_pos hguard]

/-- C3 witness: the amended sequential behavior instantiated on a concrete
successful first request. -/
theorem c3_sequential_single_shipment_witness :
    (cb_admin_set_shipped c3Env (some c3Order) (some c3User) true).ok = true ∧
    (cb_admin_set_shipped c3Env
      (some { c3Order with
        extra_data := { c3Order.extra_data with cdek_uuid := some "uuid-new" }
        track := some "uuid-new", status := statusSHIPPED })
      (some c3User) true).carrierCreateCalls = 0 := by
  refine ⟨by decide, ?_⟩
  exact (((c3_sequential_single_shipment c3Env c3Env c3Order (some c3User)
    (some c3User) true (by decide)).2 _ (by decide)).2.2.2)

end BoxBot

namespace BoxBot

/-- C4: for an order the sweeper selected (status `PENDING_PAYMENT`, created
before `now` minus the timeout) whose outstanding attempts all carry a known
kind, the sweeper (i) on finding a first succeeded attempt moves the order to
that attempt's target state — `full → PAID_FULL`, `pre → PAID_PARTIALLY`,
`rem → PAID_FULL` — and not to `ABANDONED`, messaging the owner zero times;
(ii) when no attempt succeeded, moves the order to `ABANDONED` and messages
the owner exactly once; and (iii) in either case leaves a status the
selection filter never matches again, so the transition happens exactly
once. -/
theorem c4_sweeper_outcome (now : Int) (query : String → String) (o : Order)
    (hsel : sweep_selects now o = true)
    (hkinds : ∀ kp ∈ o.extra_data.pending_payments,
      kp.1 = "full" ∨ kp.1 = "pre" ∨ kp.1 = "rem") :
    (∀ k pid,
      o.extra_data.pending_payments.find?
          (fun kp => query kp.2 == "succeeded") = some (k, pid) →
        (check_pending_timeouts_order query o).order.status =
          (if k = "pre" then statusPAID_PARTIALLY else statusPAID_FULL) ∧
        (check_pending_timeouts_order query o).order.status ≠ statusABANDONED ∧
        (check_pending_timeouts_order query o).ownerNotifications = 0) ∧
    ((∀ kp ∈ o.extra_data.pending_payments, ¬ query kp.2 = "succeeded") →
        (check_pending_timeouts_order query o).order.status = statusABANDONED ∧
        (check_pending_timeouts_order query o).ownerNotifications = 1) ∧
    (∀ now2 : Int,
      sweep_selects now2 (check_pending_timeouts_order query o).order = false) := by
  refine ⟨?_, ?_, ?_⟩
  · intro k pid hfind
    have hk : k = "full" ∨ k = "pre" ∨ k = "rem" :=
      hkinds (k, pid) (List.mem_of_find?_eq_some hfind)
    obtain ⟨o1, ho1, hloop⟩ := sweep_loop_first_succeeded query
      o.extra_data.pending_payments o false k pid hfind hk
    have hstat : o1.status =
        (if k = "pre" then statusPAID_PARTIALLY else statusPAID_FULL) := by
      rcases hk with h | h | h <;> subst h <;>
        simp [sweeper_payment_update] at ho1 <;> simp [← ho1]
    refine ⟨?_, ?_, ?_⟩ <;>
      simp [check_pending_timeouts_order, hloop, hstat] <;>
      rcases hk with h | h | h <;> subst h <;>
      simp [statusPAID_PARTIALLY, statusPAID_FULL, statusABANDONED]
  · intro hnone
    have hloop := sweep_loop_none_succeeded query
      o.extra_data.pending_payments o false hnone
    simp [check_pending_timeouts_order, hloop]
  · intro now2
    rcases hfind : o.extra_data.pending_payments.find?
        (fun kp => query kp.2 == "succeeded") with _ | ⟨k, pid⟩
    · have hnone : ∀ kp ∈ o.extra_data.pending_payments,
          ¬ query kp.2 = "succeeded" := by
        intro kp hm
        have := List.find?_eq_none.mp hfind kp hm
        simpa using this
      have hloop := sweep_loop_none_succeeded query
        o.extra_data.pending_payments o false hnone
      simp [check_pending_timeouts_order, hloop, sweep_selects,
        statusABANDONED, statusPENDING_PAYMENT]
    · have hk : k = "full" ∨ k = "pre" ∨ k = "rem" :=
        hkinds (k, pid) (List.mem_of_find?_eq_some hfind)
      obtain ⟨o1, ho1, hloop⟩ := sweep_loop_first_succeeded query
        o.extra_data.pending_payments o false k pid hfind hk
      have hstat : o1.status =
          (if k = "pre" then statusPAID_PARTIALLY else statusPAID_FULL) := by
        rcases hk with h | h | h <;> subst h <;>
          simp [sweeper_payment_update] at ho1 <;> simp [← ho1]
      rcases hk with h | h | h <;> subst h <;>
        simp [check_pending_timeouts_order, hloop, sweep_selects, hstat,
          statusPAID_PARTIALLY, statusPAID_FULL, statusPENDING_PAYMENT]

/-- C4 witness: a timed-out pending order whose single `pre` attempt
succeeded ends in `PAID_PARTIALLY`, and one with no succeeded attempt ends in
`ABANDONED` with one owner message. -/
theorem c4_sweeper_outcome_witness :
    sweep_selects 1000 c4Order = true ∧
    (check_pending_timeouts_order (fun _ => "succeeded") c4Order).order.status =
      statusPAID_PARTIALLY ∧
    sweep_selects 1000 c4OrderB = true ∧
    (check_pending_timeouts_order (fun _ => "pending") c4OrderB).order.status =
      statusABANDONED ∧
    (check_pending_timeouts_order (fun _ => "pending") c4OrderB).ownerNotifications
      = 1 := by
  refine ⟨by decide, ?_, by decide, ?_, ?_⟩
  · have h := c4_sweeper_outcome 1000 (fun _ => "succeeded") c4Order
      (by decide) (by decide)
    simpa using (h.1 "pre" "p1" (by decide)).1
  · exact ((c4_sweeper_outcome 1000 (fun _ => "pending") c4OrderB
      (by decide) (by decide)).2.1 (by decide)).1
  · exact ((c4_sweeper_outcome 1000 (fun _ => "pending") c4OrderB
      (by decide) (by decide)).2.1 (by decide)).2

end BoxBot

namespace BoxBot

/-- C5: the claim says the poller notifies the owner exactly once on first
receipt of a real tracking number, distinguishing it from the placeholder
stored at shipment creation. The code contradicts itself: shipment creation
stores the carrier uuid as the placeholder `track` value, while the poller's
placeholder test accepts only an empty `track` or one starting with `BOX`
(the shop-number prefix, which is never stored in `track`). Hence for any
order shipped through `create_cdek_order` whose uuid is nonempty and does
not start with `BOX` — every real CDEK uuid — the track notification fires
zero times, not once, on every poll. -/
theorem c5_track_notification_never_fires (env : CdekEnv)
    (order? : Option Order) (user? : Option CdekUser) (uuid : String)
    (hresp : env.createResp = some (some uuid))
    (hne : uuid.isEmpty = false) (hbox : pyStartsWith uuid "BOX" = false)
    (hok : (create_cdek_order env order? user?).ok = true) :
    ∀ o1, (create_cdek_order env order? user?).order = some o1 →
      ∀ (info? : Option CdekInfo) (cache : Option String),
        (check_all_shipped_orders_step o1 info? cache).trackNotifications = 0 := by
  intro o1 ho1
  exact poller_track_guard_dead o1 uuid
    (create_cdek_order_ok_track env order? user? uuid hresp hok o1 ho1) hne hbox

/-- C5 witness: a concrete shipment whose creation succeeded with a
CDEK-shaped uuid; a later poll returning the real tracking number `1234567890`
sends no owner notification. -/
theorem c5_track_notification_never_fires_witness :
    (create_cdek_order c5Env (some c5Order) (some c5User)).ok = true ∧
    (check_all_shipped_orders_step c5Shipped (some c5Info) none).trackNotifications
      = 0 := by
  refine ⟨by decide, ?_⟩
  exact c5_track_notification_never_fires c5Env (some c5Order) (some c5User)
    "72753031-1111" (by decide) (by decide) (by decide) (by decide)
    c5Shipped (by decide) (some c5Info) none

/-- C6: when `create_cdek_order` fails — falsy carrier token, missing order,
missing pickup point, incomplete owner profile, HTTP error, missing uuid, or
an exception — it returns `False` with the order row exactly as it was (in
particular an `ASSEMBLED` order stays `ASSEMBLED`), and the carrier's
create endpoint was called at most once, i.e. never automatically retried. -/
theorem c6_carrier_failure_leaves_order (env : CdekEnv) (order? : Option Order)
    (user? : Option CdekUser)
    (h : (create_cdek_order env order? user?).ok = false) :
    (create_cdek_order env order? user?).order = order? ∧
    (create_cdek_order env order? user?).carrierCreateCalls ≤ 1 := by
  unfold create_cdek_order at *
  by_cases ht : pyFalsy env.token = true
  · simp [ht]
  · simp only [ht] at *
    cases order? with
    | none => simp
    | some order =>
      by_cases hp : pyFalsy order.extra_data.pvz_code = true
      · simp [hp]
      · simp only [hp] at *
        cases user? with
        | none => simp
        | some user =>
          by_cases hu : (pyFalsy user.full_name || pyFalsy user.phone) = true
          · simp [hu]
          · simp only [hu] at *
            cases hr : env.createResp with
            | none => simp [hr]
            | some r =>
              cases r with
              | none => simp [hr]
              | some uuid => simp [hr] at h ⊢

/-- C6 witness: a carrier rejection (HTTP error) on a concrete assembled
order: the call reports failure, the order row is untouched, one carrier
call was made. -/
theorem c6_carrier_failure_leaves_order_witness :
    (create_cdek_order { token := some "tok", createResp := none }
        (some c6Order) (some c3User)).ok = false ∧
    (create_cdek_order { token := some "tok", createResp := none }
        (some c6Order) (some c3User)).order = some c6Order ∧
    (create_cdek_order { token := some "tok", createResp := none }
        (some c6Order) (some c3User)).carrierCreateCalls ≤ 1 := by
  refine ⟨by decide, ?_, ?_⟩
  · exact (c6_carrier_failure_leaves_order _ _ _ (by decide)).1
  · exact (c6_carrier_failure_leaves_order _ _ _ (by decide)).2

/-- C7: every webhook request that passes the YooKassa origin filter is
acknowledged with HTTP 200, whatever happened inside — an exception anywhere
in the handler, a non-`payment.succeeded` event, missing or non-numeric
`order_id` metadata, an unknown order, an already-processed order, or the
full processing path. -/
theorem c7_webhook_always_acknowledges (client_ip : String)
    (body : WebhookBody) (db : OrderDB)
    (h : origin_allowed client_ip = true) :
    yookassa_webhook_http client_ip body db = 200 := by
  unfold yookassa_webhook_http
  rw [h]
  simp only [Bool.not_true, Bool.false_eq_true, if_false]
  rcases body with _ | ⟨e, pid, mo, mk⟩
  · rfl
  · simp only []
    split
    · rcases mo with _ | s
      · rfl
      · rcases hn : s.toNat? with _ | oid
        · simp only [hn]
        · simp only [hn]
          rcases hd : db oid with _ | o <;> simp only [hd]
    · rfl

/-- C7 witness: a request from an official YooKassa address whose body raised
inside the handler is still acknowledged with 200. -/
theorem c7_webhook_always_acknowledges_witness :
    origin_allowed "77.75.154.206" = true ∧
    yookassa_webhook_http "77.75.154.206" WebhookBody.exception
      (fun _ => none) = 200 := by
  refine ⟨by decide, ?_⟩
  exact c7_webhook_always_acknowledges "77.75.154.206" WebhookBody.exception
    (fun _ => none) (by decide)

/-- C8: a succeeded webhook whose declared kind is none of `full`/`pre`/`rem`,
hitting a found, not-yet-terminal order, leaves both `status` and
`payment_kind` untouched, yet still stores the gateway payment id in the
order's extension map, resets the owner's conversation state, and sends one
admin and one owner payment-success notification. -/
theorem c8_unknown_kind_side_effects (o : Order) (kind pid : String)
    (u : UserState)
    (hterm : ¬(o.status = statusPAID_FULL ∨ o.status = statusSHIPPED ∨
      o.status = statusARCHIVED))
    (hkind : kind ≠ "full" ∧ kind ≠ "pre" ∧ kind ≠ "rem") :
    (yookassa_webhook_process_order o kind pid (some u)).order.status =
        o.status ∧
    (yookassa_webhook_process_order o kind pid (some u)).order.payment_kind =
        o.payment_kind ∧
    (yookassa_webhook_process_order o kind pid
        (some u)).order.extra_data.yookassa_payment_id = some pid ∧
    (yookassa_webhook_process_order o kind pid (some u)).user =
        some (reset_states u) ∧
    (yookassa_webhook_process_order o kind pid (some u)).adminNotifications
        = 1 ∧
    (yookassa_webhook_process_order o kind pid (some u)).ownerNotifications
        = 1 := by
  simp [yookassa_webhook_process_order, if_neg hterm, hkind.1, hkind.2.1,
    hkind.2.2]

/-- C8 witness: a concrete pending order receiving a succeeded event of kind
`bonus`. -/
theorem c8_unknown_kind_side_effects_witness :
    ¬(c8Order.status = statusPAID_FULL ∨ c8Order.status = statusSHIPPED ∨
      c8Order.status = statusARCHIVED) ∧
    (yookassa_webhook_process_order c8Order "bonus" "pay_8"
      (some c8User)).order.status = c8Order.status := by
  refine ⟨by decide, ?_⟩
  exact (c8_unknown_kind_side_effects c8Order "bonus" "pay_8" c8User
    (by decide) (by decide)).1

/-- C9 counterexample: at 10100 kopecks (101.00 rubles) the prepayment is 30
rubles and the remainder 70 rubles, so their sum is 100, one ruble short of
`total_price` — the claimed exact partition fails. -/
theorem c9_counterexample :
    c9Order.prepay_amount + c9Order.remainder_amount ≠ c9Order.total_price := by
  decide

/-- C9 (amended): for every order with a nonnegative kopeck total, the
prepayment plus the remainder equals the total ruble price up to one ruble
lost to the two floor divisions: the sum never exceeds `total_price` and
falls short of it by at most 1. -/
theorem c9_partition_up_to_one_ruble (o : Order)
    (h : 0 ≤ o.total_price_kop) :
    o.prepay_amount + o.remainder_amount ≤ o.total_price ∧
    o.total_price ≤ o.prepay_amount + o.remainder_amount + 1 := by
  unfold Order.prepay_amount Order.remainder_amount Order.total_price
  set T := o.total_price_kop with hT
  have h30 : (0:Int) ≤ T * 30 := by positivity
  have hp : (T * 30).fdiv 100 = (T * 30) / 100 :=
    Int.fdiv_eq_ediv _ (by norm_num)
  have hpnn : 0 ≤ (T * 30) / 100 := Int.ediv_nonneg h30 (by norm_num)
  have hple : (T * 30) / 100 ≤ T := by
    calc (T * 30) / 100 ≤ (T * 100) / 100 := by
          apply Int.ediv_le_ediv (by norm_num)
          nlinarith
      _ = T := by omega
  rw [hp, max_eq_left (by omega)]
  rw [Int.fdiv_eq_ediv _ (by norm_num : (0:Int) ≤ 100),
      Int.fdiv_eq_ediv _ (by norm_num : (0:Int) ≤ 100),
      Int.fdiv_eq_ediv _ (by norm_num : (0:Int) ≤ 100)]
  omega

/-- C9 witness: at a round 10000-kopeck total the bound is tight on the left:
30 + 70 = 100 rubles exactly. -/
theorem c9_partition_up_to_one_ruble_witness :
    (0:Int) ≤ (10000:Int) ∧
    ({ c9Order with total_price_kop := 10000 } : Order).prepay_amount +
        ({ c9Order with total_price_kop := 10000 } : Order).remainder_amount ≤
      ({ c9Order with total_price_kop := 10000 } : Order).total_price := by
  refine ⟨by decide, ?_⟩
  exact (c9_partition_up_to_one_ruble
    { c9Order with total_price_kop := 10000 } (by decide)).1

/-- C10: the client-facing lookup returns an order exactly when that order is
stored under the requested id and belongs to the requesting user; any
mismatch in ownership (or a missing row) yields `None`, so no user can read
another user's order through this entry point. -/
theorem c10_order_lookup_owner_only (db : OrderDB) (oid uid : Nat)
    (o : Order) :
    get_order_by_id db oid uid = some o ↔
      db oid = some o ∧ o.user_id = uid := by
  unfold get_order_by_id
  cases h : db oid with
  | none => simp
  | some o' =>
    by_cases hu : o'.user_id = uid <;> simp [hu] <;> aesop

end BoxBot
